import Mathlib

/-!
Verification of the car-lease calculator's pricing engine and comparison
evaluator, shallowly embedded from the TypeScript source.

Numbers: the source computes with JS floating-point numbers; the embedding
uses exact rationals (ℚ).  The one place where JS non-finite values matter
(division by a zero lease term) is modelled separately with an explicit
JS-number type `JSNum` carrying Infinity / -Infinity / NaN.

JS idioms are embedded faithfully:
  - For a number-valued field x, the source's fallback `x || 0` yields 0
    exactly when x is falsy (0 or NaN); on rational inputs this is
    `jsOr0 x = if x = 0 then 0 else x`.
  - A conditional `c ? a : b` on a number c tests truthiness, i.e. c ≠ 0.
-/

/-- JS `x || 0` on a number: 0 is falsy, every other rational is truthy. -/
def jsOr0 (x : ℚ) : ℚ := if x = 0 then 0 else x

/-- The LeaseData record from src/lib/leaseData.ts.  The free-text fields
(carMake, carModel, carTier, dealership, vin, notes) are omitted: the
pricing and ranking logic never reads them.  `id` is the opaque stable
identifier used by the comparison view. -/
structure CarQ where
  id : String
  msrp : ℚ
  capCostPercent : ℚ
  discount : ℚ
  discountAmount : ℚ
  residualPercent : ℚ
  apr : ℚ
  marketFactor : ℚ
  leaseTerm : ℚ
  ficoScore8 : ℚ
  salesTaxPercent : ℚ
  tagTitleFilingFees : ℚ
  handlingFees : ℚ
  otherFees : ℚ
  downPayment : ℚ
  equityTransfer : ℚ
  dueAtSigning : ℚ
  deriving DecidableEq

/-- The record returned by getCarPayments (src/lib/leaseData.ts, lines
90-104) and by getCarPaymentsWithOverride (src/components/ComparisonView.tsx,
lines 136-150); both return exactly these thirteen fields. -/
structure Payments where
  baseCapCost : ℚ
  adjustedCapCost : ℚ
  adjustedCapCostWithTax : ℚ
  totalFees : ℚ
  totalDownPayment : ℚ
  residualValue : ℚ
  depreciation : ℚ
  currentApr : ℚ
  currentMoneyFactor : ℚ
  monthlyDepreciation : ℚ
  monthlyFinanceCharge : ℚ
  baseMonthlyPayment : ℚ
  totalMonthlyPayment : ℚ
  deriving DecidableEq

/-- getCarPayments, src/lib/leaseData.ts lines 70-105, line by line.
In ℚ the division `depreciation / car.leaseTerm` is total (x / 0 = 0);
the JS behaviour at a zero lease term is modelled by getCarPaymentsJS. -/
def getCarPayments (car : CarQ) : Payments :=
  let baseCapCost := car.msrp * (1 - jsOr0 car.discount / 100)
  let totalFees :=
    jsOr0 car.tagTitleFilingFees + jsOr0 car.handlingFees + jsOr0 car.otherFees
  let totalDownPayment :=
    jsOr0 car.downPayment + jsOr0 car.equityTransfer + jsOr0 car.dueAtSigning
  let adjustedCapCost := baseCapCost + totalFees - totalDownPayment
  let adjustedCapCostWithTax := adjustedCapCost * (1 + jsOr0 car.salesTaxPercent / 100)
  let residualValue := car.msrp * car.residualPercent / 100
  let depreciation := adjustedCapCost - residualValue
  let monthlyDepreciation := depreciation / car.leaseTerm
  let currentApr :=
    if car.apr = 0 then (if car.marketFactor = 0 then 0 else car.marketFactor * 2400)
    else car.apr
  let currentMoneyFactor :=
    if car.marketFactor = 0 then (if car.apr = 0 then 0 else car.apr / 2400)
    else car.marketFactor
  let monthlyRate := currentApr / 100 / 12
  let monthlyFinanceCharge := (adjustedCapCost + residualValue) * monthlyRate
  let baseMonthlyPayment := monthlyDepreciation + monthlyFinanceCharge
  let salesTaxMultiplier := 1 + jsOr0 car.salesTaxPercent / 100
  let totalMonthlyPayment := baseMonthlyPayment * salesTaxMultiplier
  { baseCapCost := baseCapCost
    adjustedCapCost := adjustedCapCost
    adjustedCapCostWithTax := adjustedCapCostWithTax
    totalFees := totalFees
    totalDownPayment := totalDownPayment
    residualValue := residualValue
    depreciation := depreciation
    currentApr := currentApr
    currentMoneyFactor := currentMoneyFactor
    monthlyDepreciation := monthlyDepreciation
    monthlyFinanceCharge := monthlyFinanceCharge
    baseMonthlyPayment := baseMonthlyPayment
    totalMonthlyPayment := totalMonthlyPayment }

/-- The per-car override record of the comparison view.  The UI stores the
six override fields as strings and parses them on use; a field that is
absent or the empty string counts as no override (both in hasOverride and
in getCarOverrides, src/components/ComparisonView.tsx lines 157-169 and
232-242), so an override field is modelled as an optional parsed rational. -/
structure Overrides where
  discount : Option ℚ := none
  residualPercent : Option ℚ := none
  apr : Option ℚ := none
  marketFactor : Option ℚ := none
  downPayment : Option ℚ := none
  totalFees : Option ℚ := none
  deriving DecidableEq

/-- getCarPaymentsWithOverride, src/components/ComparisonView.tsx lines
94-151, line by line.  `overrideDownPaymentValue` is the optional global
down-payment override; `overrides` is the optional per-car override record
(the JS checks `overrides?.f !== undefined` become Option matches). -/
def getCarPaymentsWithOverride (car : CarQ) (overrideDownPaymentValue : Option ℚ)
    (overrides : Option Overrides) : Payments :=
  let ov := fun (f : Overrides → Option ℚ) => (overrides.bind f)
  let discount := (ov (fun o => o.discount)).getD (jsOr0 car.discount)
  let residualPercent := (ov (fun o => o.residualPercent)).getD car.residualPercent
  let rates : ℚ × ℚ :=
    match ov (fun o => o.apr) with
    | some a => (a, a / 2400)
    | none =>
      match ov (fun o => o.marketFactor) with
      | some m => (m * 2400, m)
      | none =>
        (if car.apr = 0 then (if car.marketFactor = 0 then 0 else car.marketFactor * 2400)
         else car.apr,
         if car.marketFactor = 0 then (if car.apr = 0 then 0 else car.apr / 2400)
         else car.marketFactor)
  let currentApr := rates.1
  let currentMoneyFactor := rates.2
  let downPaymentOverride :=
    (ov (fun o => o.downPayment)).getD
      (overrideDownPaymentValue.getD (jsOr0 car.downPayment))
  let baseCapCost := car.msrp * (1 - discount / 100)
  let totalFees :=
    (ov (fun o => o.totalFees)).getD
      (jsOr0 car.tagTitleFilingFees + jsOr0 car.handlingFees + jsOr0 car.otherFees)
  let totalDownPayment := downPaymentOverride + jsOr0 car.equityTransfer + jsOr0 car.dueAtSigning
  let adjustedCapCost := baseCapCost + totalFees - totalDownPayment
  let adjustedCapCostWithTax := adjustedCapCost * (1 + jsOr0 car.salesTaxPercent / 100)
  let residualValue := car.msrp * residualPercent / 100
  let depreciation := adjustedCapCost - residualValue
  let monthlyDepreciation := depreciation / car.leaseTerm
  let monthlyRate := currentApr / 100 / 12
  let monthlyFinanceCharge := (adjustedCapCost + residualValue) * monthlyRate
  let baseMonthlyPayment := monthlyDepreciation + monthlyFinanceCharge
  let salesTaxMultiplier := 1 + jsOr0 car.salesTaxPercent / 100
  let totalMonthlyPayment := baseMonthlyPayment * salesTaxMultiplier
  { baseCapCost := baseCapCost
    adjustedCapCost := adjustedCapCost
    adjustedCapCostWithTax := adjustedCapCostWithTax
    totalFees := totalFees
    totalDownPayment := totalDownPayment
    residualValue := residualValue
    depreciation := depreciation
    currentApr := currentApr
    currentMoneyFactor := currentMoneyFactor
    monthlyDepreciation := monthlyDepreciation
    monthlyFinanceCharge := monthlyFinanceCharge
    baseMonthlyPayment := baseMonthlyPayment
    totalMonthlyPayment := totalMonthlyPayment }

/-- getExpectedResidualPercent, src/components/ComparisonView.tsx lines
73-91.  The source's final empty branch (milesPerYear <= 12000: no
adjustment) and its missing else branch both leave residual unchanged. -/
def getExpectedResidualPercent (leaseTerm : ℚ) (milesPerYear : ℚ) : ℚ :=
  let baseResidual : ℚ := 60
  let termAdjustment := (leaseTerm - 36) * (0.5 : ℚ)
  let residual := max 0 (min 100 (baseResidual - termAdjustment))
  let residual2 :=
    if milesPerYear ≤ 7500 then residual + (3.5 : ℚ)
    else if milesPerYear ≤ 10000 then residual + (2.5 : ℚ)
    else residual
  max 0 (min 100 residual2)

/-- Clamp to the interval [0, 100], as the spec words it. -/
def clamp0100 (x : ℚ) : ℚ := max 0 (min 100 x)

/-- The expected-residual formula exactly as the specification words it:
the clamped base, plus 3.5 when milesPerYear ≤ 7500, plus 2.5 when
7500 < milesPerYear ≤ 10000, plus 0 otherwise (including every value
above 12000), with the final result clamped to [0,100]. -/
def expectedResidualSpec (leaseTerm : ℚ) (milesPerYear : ℚ) : ℚ :=
  clamp0100
    (clamp0100 (60 - (leaseTerm - 36) * (0.5 : ℚ)) +
      (if milesPerYear ≤ 7500 then (3.5 : ℚ)
       else if 7500 < milesPerYear ∧ milesPerYear ≤ 10000 then (2.5 : ℚ)
       else 0))

/-!
JS non-finite arithmetic.  The stored fields of a car are plain numbers,
so along the pricing pipeline every operation stays within exact
arithmetic except the single division by car.leaseTerm, which in JS
produces Infinity, -Infinity or NaN when the lease term is 0.  JSNum
models a JS number for exactly that step and the two operations after it.
(-0 is not modelled; no input here produces it.)
-/

/-- A JS double restricted to the values this pipeline can produce:
an exact rational, the two infinities, or NaN. -/
inductive JSNum where
  | num (q : ℚ)
  | inf
  | negInf
  | nan
  deriving DecidableEq

/-- JS division, a / b, including the division-by-zero and non-finite rules. -/
def JSNum.div : JSNum → JSNum → JSNum
  | nan, _ => nan
  | _, nan => nan
  | num a, num b =>
    if b = 0 then (if 0 < a then inf else if a < 0 then negInf else nan)
    else num (a / b)
  | inf, num b => if 0 ≤ b then inf else negInf
  | negInf, num b => if 0 ≤ b then negInf else inf
  | num _, inf => num 0
  | num _, negInf => num 0
  | inf, inf => nan
  | inf, negInf => nan
  | negInf, inf => nan
  | negInf, negInf => nan

/-- JS addition on this fragment. -/
def JSNum.add : JSNum → JSNum → JSNum
  | nan, _ => nan
  | _, nan => nan
  | inf, negInf => nan
  | negInf, inf => nan
  | inf, _ => inf
  | _, inf => inf
  | negInf, _ => negInf
  | _, negInf => negInf
  | num a, num b => num (a + b)

/-- JS multiplication on this fragment. -/
def JSNum.mul : JSNum → JSNum → JSNum
  | nan, _ => nan
  | _, nan => nan
  | num a, num b => num (a * b)
  | inf, num b => if 0 < b then inf else if b < 0 then negInf else nan
  | num a, inf => if 0 < a then inf else if a < 0 then negInf else nan
  | negInf, num b => if 0 < b then negInf else if b < 0 then inf else nan
  | num a, negInf => if 0 < a then negInf else if a < 0 then inf else nan
  | inf, inf => inf
  | inf, negInf => negInf
  | negInf, inf => negInf
  | negInf, negInf => inf

/-- JS subtraction on this fragment. -/
def JSNum.sub : JSNum → JSNum → JSNum
  | nan, _ => nan
  | _, nan => nan
  | inf, inf => nan
  | negInf, negInf => nan
  | inf, _ => inf
  | negInf, _ => negInf
  | num _, inf => negInf
  | num _, negInf => inf
  | num a, num b => num (a - b)

/-- The payment breakdown with JS number semantics: only the three fields
downstream of the division by car.leaseTerm can be non-finite; every
other field is exact on rational inputs. -/
structure PaymentsJS where
  baseCapCost : ℚ
  adjustedCapCost : ℚ
  adjustedCapCostWithTax : ℚ
  totalFees : ℚ
  totalDownPayment : ℚ
  residualValue : ℚ
  depreciation : ℚ
  currentApr : ℚ
  currentMoneyFactor : ℚ
  monthlyFinanceCharge : ℚ
  monthlyDepreciation : JSNum
  baseMonthlyPayment : JSNum
  totalMonthlyPayment : JSNum
  deriving DecidableEq

/-- getCarPayments under JS number semantics: identical to getCarPayments
except that the division by car.leaseTerm and the two operations consuming
its result follow JS non-finite arithmetic.  The source function is total
and returns this record for every input; it has no error outcome. -/
def getCarPaymentsJS (car : CarQ) : PaymentsJS :=
  let baseCapCost := car.msrp * (1 - jsOr0 car.discount / 100)
  let totalFees :=
    jsOr0 car.tagTitleFilingFees + jsOr0 car.handlingFees + jsOr0 car.otherFees
  let totalDownPayment :=
    jsOr0 car.downPayment + jsOr0 car.equityTransfer + jsOr0 car.dueAtSigning
  let adjustedCapCost := baseCapCost + totalFees - totalDownPayment
  let adjustedCapCostWithTax := adjustedCapCost * (1 + jsOr0 car.salesTaxPercent / 100)
  let residualValue := car.msrp * car.residualPercent / 100
  let depreciation := adjustedCapCost - residualValue
  let monthlyDepreciation := JSNum.div (JSNum.num depreciation) (JSNum.num car.leaseTerm)
  let currentApr :=
    if car.apr = 0 then (if car.marketFactor = 0 then 0 else car.marketFactor * 2400)
    else car.apr
  let currentMoneyFactor :=
    if car.marketFactor = 0 then (if car.apr = 0 then 0 else car.apr / 2400)
    else car.marketFactor
  let monthlyRate := currentApr / 100 / 12
  let monthlyFinanceCharge := (adjustedCapCost + residualValue) * monthlyRate
  let baseMonthlyPayment := JSNum.add monthlyDepreciation (JSNum.num monthlyFinanceCharge)
  let salesTaxMultiplier := 1 + jsOr0 car.salesTaxPercent / 100
  let totalMonthlyPayment := JSNum.mul baseMonthlyPayment (JSNum.num salesTaxMultiplier)
  { baseCapCost := baseCapCost
    adjustedCapCost := adjustedCapCost
    adjustedCapCostWithTax := adjustedCapCostWithTax
    totalFees := totalFees
    totalDownPayment := totalDownPayment
    residualValue := residualValue
    depreciation := depreciation
    currentApr := currentApr
    currentMoneyFactor := currentMoneyFactor
    monthlyFinanceCharge := monthlyFinanceCharge
    monthlyDepreciation := monthlyDepreciation
    baseMonthlyPayment := baseMonthlyPayment
    totalMonthlyPayment := totalMonthlyPayment }

/-- Lift the exact breakdown into the JS-semantics record. -/
def liftPayments (p : Payments) : PaymentsJS :=
  { baseCapCost := p.baseCapCost
    adjustedCapCost := p.adjustedCapCost
    adjustedCapCostWithTax := p.adjustedCapCostWithTax
    totalFees := p.totalFees
    totalDownPayment := p.totalDownPayment
    residualValue := p.residualValue
    depreciation := p.depreciation
    currentApr := p.currentApr
    currentMoneyFactor := p.currentMoneyFactor
    monthlyFinanceCharge := p.monthlyFinanceCharge
    monthlyDepreciation := JSNum.num p.monthlyDepreciation
    baseMonthlyPayment := JSNum.num p.baseMonthlyPayment
    totalMonthlyPayment := JSNum.num p.totalMonthlyPayment }

/-!
The comparison view's override-aware ranking
(src/components/ComparisonView.tsx lines 219-310).

The per-car override map (React state carOverrides, a JS object keyed by
car id) is modelled as an association list with distinct keys; lookup is
the object property access.  lastSortedOrder is the list of car ids
captured the last time the ranking settled.

Array.prototype.sort semantics (ECMAScript): the sort is stable, a
comparator value below 0 places the first argument earlier, a NaN
comparator value is treated as 0 (a tie).  For a consistent comparator
that behaviour is realised exactly by a stable insertion sort, which is
the model used here.  (For an inconsistent comparator ECMAScript leaves
the resulting order implementation-defined; the model fixes the canonical
stable sort.)
-/

/-- JS test `v > 0` on a comparator result: true for positive numbers and
Infinity, false for non-positive numbers, -Infinity and NaN. -/
def JSNum.isPos : JSNum → Bool
  | num q => decide (0 < q)
  | inf => true
  | negInf => false
  | nan => false

/-- Property access carOverrides[id] on the override map (a JS object has
at most one entry per key). -/
def lookupOv (id : String) : List (String × Overrides) → Option Overrides
  | [] => none
  | (k, o) :: rest => if k = id then some o else lookupOv id rest

/-- orderMap.get(id): the position of the id in the last settled ordering
(built from a list of distinct ids), if it has one. -/
def orderIdx (id : String) : List String → Option ℕ
  | [] => none
  | x :: xs => if x = id then some 0 else (orderIdx id xs).map (· + 1)

/-- hasOverride (src/components/ComparisonView.tsx lines 232-242): the car
has an entry in the override map with at least one field that is present
and non-empty. -/
def hasOverride (ov : List (String × Overrides)) (id : String) : Bool :=
  match lookupOv id ov with
  | none => false
  | some o =>
    o.discount.isSome || o.residualPercent.isSome || o.apr.isSome ||
    o.marketFactor.isSome || o.downPayment.isSome || o.totalFees.isSome

/-- orderMap.get(id) ?? Infinity: the position of the id in the last
settled ordering, or Infinity when it has none. -/
def idxOrInf (ord : List String) (id : String) : JSNum :=
  match orderIdx id ord with
  | some i => JSNum.num i
  | none => JSNum.inf

/-- The payment used for ranking: the full override-aware breakdown's
totalMonthlyPayment (src/components/ComparisonView.tsx lines 285-287). -/
def rankPayment (g : Option ℚ) (ov : List (String × Overrides)) (car : CarQ) : ℚ :=
  (getCarPaymentsWithOverride car g (lookupOv car.id ov)).totalMonthlyPayment

/-- The pinning comparator of sortedCars
(src/components/ComparisonView.tsx lines 250-288), branch by branch,
returning the JS number the source comparator returns. -/
def pinnedCompare (ov : List (String × Overrides)) (ord : List String)
    (g : Option ℚ) (a b : CarQ) : JSNum :=
  let aH := hasOverride ov a.id
  let bH := hasOverride ov b.id
  if aH && bH then
    JSNum.sub (idxOrInf ord a.id) (idxOrInf ord b.id)
  else if aH then
    match orderIdx b.id ord with
    | some j => JSNum.sub (idxOrInf ord a.id) (JSNum.num j)
    | none => JSNum.sub (idxOrInf ord a.id) JSNum.inf
  else if bH then
    match orderIdx a.id ord with
    | some i => JSNum.sub (JSNum.num i) (idxOrInf ord b.id)
    | none => JSNum.sub JSNum.inf (idxOrInf ord b.id)
  else
    JSNum.num (rankPayment g ov a - rankPayment g ov b)

/-- The plain payment comparator (src/components/ComparisonView.tsx lines
292-296), used when nothing is pinned. -/
def paymentCompare (g : Option ℚ) (ov : List (String × Overrides)) (a b : CarQ) : JSNum :=
  JSNum.num (rankPayment g ov a - rankPayment g ov b)

/-- Stable insertion of x into a list sorted by keep: x is placed before
the first element y with keep x y (a tie or a win for x). -/
def orderedInsertJS (keep : α → α → Bool) (x : α) : List α → List α
  | [] => [x]
  | y :: ys => if keep x y then x :: y :: ys else y :: orderedInsertJS keep x ys

/-- Stable insertion sort: the model of Array.prototype.sort with
comparator cmp, where an element stays before another unless the
comparator says it must come after (result > 0). -/
def jsSortBy (cmp : α → α → JSNum) : List α → List α
  | [] => []
  | x :: xs => orderedInsertJS (fun a b => ! (cmp a b).isPos) x (jsSortBy cmp xs)

/-- sortedCars (src/components/ComparisonView.tsx lines 245-297): if a
settled ordering exists and some selected car carries an override, sort
with the pinning comparator; otherwise sort every car by payment. -/
def sortedCars (cars : List CarQ) (g : Option ℚ) (ov : List (String × Overrides))
    (ord : List String) : List CarQ :=
  if 0 < ord.length && cars.any (fun c => hasOverride ov c.id) then
    jsSortBy (pinnedCompare ov ord g) cars
  else
    jsSortBy (paymentCompare g ov) cars

/-!
Concrete inputs used by the claims below.
-/

/-- A freshly created car with every numeric field 0 except the fields
claims set explicitly; mirrors createNewCar with the fee defaults cleared
so each scenario states its fees itself. -/
def baseCar : CarQ :=
  { id := ""
    msrp := 0
    capCostPercent := 100
    discount := 0
    discountAmount := 0
    residualPercent := 0
    apr := 0
    marketFactor := 0
    leaseTerm := 36
    ficoScore8 := 0
    salesTaxPercent := 0
    tagTitleFilingFees := 0
    handlingFees := 0
    otherFees := 0
    downPayment := 0
    equityTransfer := 0
    dueAtSigning := 0 }

/-- The concrete scenario of the specification: MSRP 35000, discount 5%,
residual 60%, APR 3%, term 36, fees 900 (all in tagTitleFilingFees),
down payment 2000, no equity or due-at-signing, sales tax 7%. -/
def c1car : CarQ :=
  { baseCar with
    msrp := 35000
    discount := 5
    residualPercent := 60
    apr := 3
    leaseTerm := 36
    tagTitleFilingFees := 900
    downPayment := 2000
    salesTaxPercent := 7 }

/-- A car with a zero lease term and positive depreciation. -/
def c2car : CarQ :=
  { baseCar with
    msrp := 10000
    residualPercent := 50
    leaseTerm := 0 }

/-- A car with a negative MSRP and an ordinary lease term. -/
def c2neg : CarQ :=
  { baseCar with
    msrp := -5000
    leaseTerm := 36 }

/-- A helper for the ranking scenario: a car whose total monthly payment
is exactly its MSRP (term 1, residual 0, no fees, rate 0, no tax). -/
def mkRankCar (id : String) (m : ℚ) : CarQ :=
  { baseCar with
    id := id
    msrp := m
    leaseTerm := 1 }

/-- Un-overridden car u1, payment 500. -/
def c3u1 : CarQ := mkRankCar "u1" 500

/-- Overridden (pinned) car o, payment 550. -/
def c3o : CarQ := mkRankCar "o" 550

/-- Un-overridden car u2 before the edit, payment 600. -/
def c3u2a : CarQ := mkRankCar "u2" 600

/-- Un-overridden car u2 after the edit, payment 100: the same car with
only its payment-determining field changed. -/
def c3u2b : CarQ := mkRankCar "u2" 100

/-- The override map: only car o has an override (a residualPercent
override equal to its stored value, so its own payment is unchanged). -/
def c3ov : List (String × Overrides) := [("o", { residualPercent := some 0 })]

/-- The last settled ordering, the natural payment order 500 < 550 < 600. -/
def c3ord : List String := ["u1", "o", "u2"]

/-- A car with stored down payment 111, equity transfer 22 and
due-at-signing 33. -/
def c4car : CarQ :=
  { baseCar with
    downPayment := 111
    equityTransfer := 22
    dueAtSigning := 33 }

/-- A car whose stored apr (3) and marketFactor (0.01) are both nonzero
and mutually inconsistent (0.01 * 2400 = 24, not 3). -/
def c6car : CarQ :=
  { baseCar with
    apr := 3
    marketFactor := 1/100 }

/-- A car with apr stored and marketFactor left 0. -/
def c6aprOnly : CarQ :=
  { baseCar with apr := 5 }

/-- A car for the residual monotonicity scenario: positive MSRP, term 36,
zero apr and marketFactor, 7% sales tax. -/
def c7car : CarQ :=
  { baseCar with
    msrp := 30000
    leaseTerm := 36
    salesTaxPercent := 7 }

/-!
Theorems.
-/

theorem jsOr0_eq (x : ℚ) : jsOr0 x = x := by
  unfold jsOr0; split <;> simp_all

/-- C1 (amended).  On the concrete scenario (MSRP 35000, discount 5%,
residual 60%, APR 3%, term 36, fees 900, down payment 2000, sales tax 7%)
the pricing engine returns baseCapCost = 33250, totalFees = 900,
totalDownPayment = 2000, adjustedCapCost = 32150, residualValue = 21000,
depreciation = 11150, monthlyDepreciation = 11150/36 (about 309.72),
monthlyRate = 0.0025, monthlyFinanceCharge = 132.875 exactly,
baseMonthlyPayment about 442.60, totalMonthlyPayment about 473.58, and
total lease cost (totalMonthlyPayment * leaseTerm) exactly 17048.845,
about 17048.85 — not the 17048.68 the claim quotes.  Approximation means
within half a cent of the quoted figure. -/
theorem claim_C1 :
    (getCarPayments c1car).baseCapCost = 33250 ∧
    (getCarPayments c1car).totalFees = 900 ∧
    (getCarPayments c1car).totalDownPayment = 2000 ∧
    (getCarPayments c1car).adjustedCapCost = 32150 ∧
    (getCarPayments c1car).residualValue = 21000 ∧
    (getCarPayments c1car).depreciation = 11150 ∧
    (getCarPayments c1car).monthlyDepreciation = 11150 / 36 ∧
    |(getCarPayments c1car).monthlyDepreciation - 30972 / 100| < 1 / 200 ∧
    (getCarPayments c1car).currentApr / 100 / 12 = 1 / 400 ∧
    (getCarPayments c1car).monthlyFinanceCharge = 132875 / 1000 ∧
    |(getCarPayments c1car).baseMonthlyPayment - 44260 / 100| < 1 / 200 ∧
    |(getCarPayments c1car).totalMonthlyPayment - 47358 / 100| < 1 / 200 ∧
    (getCarPayments c1car).totalMonthlyPayment * 36 = 3409769 / 200 := by
  norm_num [getCarPayments, c1car, baseCar, jsOr0, abs_lt]

/-- C1 counterexample.  On that same scenario the total lease cost is
exactly 17048.845, which is not within half a cent (nor within ten cents)
of the claimed 17048.68, so the claimed total-lease-cost figure fails. -/
theorem claim_C1_counterexample :
    (getCarPayments c1car).totalMonthlyPayment * 36 = 3409769 / 200 ∧
    ¬ |(getCarPayments c1car).totalMonthlyPayment * 36 - 1704868 / 100| < 1 / 10 := by
  norm_num [getCarPayments, c1car, baseCar, jsOr0, abs_lt]

/-- C8.  For every vehicle the finance charge is levied on the sum of
adjusted cap cost and residual value: monthlyFinanceCharge =
(adjustedCapCost + residualValue) * monthlyRate with monthlyRate =
currentApr / 100 / 12. -/
theorem claim_C8 (car : CarQ) :
    (getCarPayments car).monthlyFinanceCharge =
      ((getCarPayments car).adjustedCapCost + (getCarPayments car).residualValue) *
        ((getCarPayments car).currentApr / 100 / 12) := rfl

/-- C9.  The expected-residual helper computes exactly the specified
formula: base 60 - (leaseTerm - 36) * 0.5 clamped to [0,100], plus 3.5
when milesPerYear ≤ 7500, plus 2.5 when 7500 < milesPerYear ≤ 10000,
plus 0 otherwise (including every value above 12000), with the final
result clamped to [0,100]. -/
theorem claim_C9 (leaseTerm milesPerYear : ℚ) :
    getExpectedResidualPercent leaseTerm milesPerYear =
      expectedResidualSpec leaseTerm milesPerYear := by
  unfold getExpectedResidualPercent expectedResidualSpec clamp0100
  by_cases h1 : milesPerYear ≤ 7500
  · simp [h1]
  · by_cases h2 : milesPerYear ≤ 10000
    · simp [h1, h2, lt_of_not_ge h1]
    · simp [h1, h2]

/-- C10.  Called with no per-vehicle overrides and no global down-payment
override, the comparison view's evaluator returns exactly the same
breakdown record as the plain pricing engine, so the two near-duplicate
implementations agree on every shared field. -/
theorem claim_C10 (car : CarQ) :
    getCarPaymentsWithOverride car none none = getCarPayments car := rfl

/-- C4.  Three-tier down-payment precedence in the comparison evaluator:
a per-vehicle downPayment override wins; otherwise the global down-payment
override wins; otherwise the vehicle's stored downPayment is used — and in
every tier the chosen value enters totalDownPayment together with
equityTransfer and dueAtSigning. -/
theorem claim_C4 (car : CarQ) (g : Option ℚ) (o : Option Overrides) :
    (∀ d, o.bind (fun x => x.downPayment) = some d →
      (getCarPaymentsWithOverride car g o).totalDownPayment =
        d + car.equityTransfer + car.dueAtSigning) ∧
    (o.bind (fun x => x.downPayment) = none → ∀ gv, g = some gv →
      (getCarPaymentsWithOverride car g o).totalDownPayment =
        gv + car.equityTransfer + car.dueAtSigning) ∧
    (o.bind (fun x => x.downPayment) = none → g = none →
      (getCarPaymentsWithOverride car g o).totalDownPayment =
        car.downPayment + car.equityTransfer + car.dueAtSigning) := by
  refine ⟨?_, ?_, ?_⟩
  · intro d hd
    simp [getCarPaymentsWithOverride, hd, jsOr0_eq]
  · intro hnone gv hg
    simp [getCarPaymentsWithOverride, hnone, hg, jsOr0_eq]
  · intro hnone hg
    simp [getCarPaymentsWithOverride, hnone, hg, jsOr0_eq]

/-- C4 witness: the three tiers on a concrete car with stored down payment
111, equity transfer 22 and due-at-signing 33: a per-vehicle override 555
wins over a global 999; the global 999 wins when no per-vehicle override is
present; the stored 111 is used when neither override is present. -/
theorem claim_C4_witness :
    (getCarPaymentsWithOverride c4car (some 999)
        (some { downPayment := some 555 })).totalDownPayment = 555 + 22 + 33 ∧
    (getCarPaymentsWithOverride c4car (some 999) none).totalDownPayment = 999 + 22 + 33 ∧
    (getCarPaymentsWithOverride c4car none none).totalDownPayment = 111 + 22 + 33 := by
  refine ⟨?_, ?_, ?_⟩
  · exact (claim_C4 c4car (some 999) (some { downPayment := some 555 })).1 555 rfl
  · have h := (claim_C4 c4car (some 999) none).2.1 rfl 999 rfl
    simpa [c4car, baseCar] using h
  · have h := (claim_C4 c4car none none).2.2 rfl rfl
    simpa [c4car, baseCar] using h

/-- C5.  APR/money-factor duality in the comparison evaluator: for every
rate a ≥ 0, an apr override of a and a moneyFactor override of a/2400
(with no apr override) produce exactly the same monthlyFinanceCharge,
whatever the other override fields are. -/
theorem claim_C5 (car : CarQ) (g : Option ℚ) (o : Overrides) (a : ℚ) (h : 0 ≤ a) :
    (getCarPaymentsWithOverride car g (some { o with apr := some a })).monthlyFinanceCharge =
      (getCarPaymentsWithOverride car g
        (some { o with apr := none, marketFactor := some (a / 2400) })).monthlyFinanceCharge := by
  have h2400 : a / 2400 * 2400 = a := div_mul_cancel₀ a (by norm_num)
  simp [getCarPaymentsWithOverride, h2400]

/-- C5 witness: the duality at rate a = 3 on the concrete scenario car. -/
theorem claim_C5_witness :
    (0:ℚ) ≤ 3 ∧
    (getCarPaymentsWithOverride c1car none (some { apr := some 3 })).monthlyFinanceCharge =
      (getCarPaymentsWithOverride c1car none
        (some { apr := none, marketFactor := some (3 / 2400) })).monthlyFinanceCharge := by
  refine ⟨by norm_num, ?_⟩
  have h := claim_C5 c1car none {} 3 (by norm_num)
  simpa using h

/-- C6 (amended).  The engine's effective rate pair satisfies
currentApr = currentMoneyFactor * 2400 whenever at most one of the stored
apr / marketFactor is nonzero (the other side is then derived); when both
stored values are nonzero the engine returns them both unchanged
(currentApr = apr and currentMoneyFactor = marketFactor), so the invariant
holds there only if the stored pair was already consistent — it is not
re-established by the engine. -/
theorem claim_C6 (car : CarQ) :
    ((car.apr = 0 ∨ car.marketFactor = 0) →
      (getCarPayments car).currentApr = (getCarPayments car).currentMoneyFactor * 2400) ∧
    (car.apr ≠ 0 → car.marketFactor ≠ 0 →
      (getCarPayments car).currentApr = car.apr ∧
      (getCarPayments car).currentMoneyFactor = car.marketFactor) := by
  constructor
  · intro h
    by_cases ha : car.apr = 0 <;> by_cases hm : car.marketFactor = 0
    · simp [getCarPayments, ha, hm]
    · simp [getCarPayments, ha, hm]
    · have h24 : car.apr / 2400 * 2400 = car.apr := div_mul_cancel₀ _ (by norm_num)
      simp [getCarPayments, ha, hm, h24]
    · rcases h with h | h
      · exact absurd h ha
      · exact absurd h hm
  · intro ha hm
    simp [getCarPayments, ha, hm]

/-- C6 witness: with apr = 5 stored and marketFactor = 0 the pair is
consistent (5 = (5/2400) * 2400); with both stored nonzero (apr = 3,
marketFactor = 0.01) the engine passes both through unchanged. -/
theorem claim_C6_witness :
    (getCarPayments c6aprOnly).currentApr = (getCarPayments c6aprOnly).currentMoneyFactor * 2400 ∧
    (getCarPayments c6car).currentApr = c6car.apr ∧
    (getCarPayments c6car).currentMoneyFactor = c6car.marketFactor := by
  refine ⟨(claim_C6 c6aprOnly).1 (Or.inr rfl), (claim_C6 c6car).2 ?_ ?_⟩
  · show (3:ℚ) ≠ 0
    norm_num
  · show (1/100:ℚ) ≠ 0
    norm_num

/-- C6 counterexample: for the car with stored apr = 3 and stored
marketFactor = 0.01 (both nonzero, mutually inconsistent), the engine
returns currentApr = 3 but currentMoneyFactor * 2400 = 24, so the claimed
invariant fails exactly in the both-nonzero case the claim includes. -/
theorem claim_C6_counterexample :
    (getCarPayments c6car).currentApr = 3 ∧
    (getCarPayments c6car).currentMoneyFactor * 2400 = 24 ∧
    ¬ (getCarPayments c6car).currentApr = (getCarPayments c6car).currentMoneyFactor * 2400 := by
  norm_num [getCarPayments, c6car, baseCar]

/-- C7.  With apr = 0 and marketFactor = 0 (so the finance charge is 0),
positive MSRP, positive lease term, and the data model's non-negative
sales tax, the total monthly payment is strictly decreasing in the
residual percentage, all other fields held fixed. -/
theorem claim_C7 (car : CarQ) (r1 r2 : ℚ)
    (ha : car.apr = 0) (hm : car.marketFactor = 0)
    (hmsrp : 0 < car.msrp) (hterm : 0 < car.leaseTerm)
    (htax : 0 ≤ car.salesTaxPercent) (hr : r1 < r2) :
    (getCarPayments { car with residualPercent := r2 }).totalMonthlyPayment <
      (getCarPayments { car with residualPercent := r1 }).totalMonthlyPayment := by
  simp only [getCarPayments, jsOr0_eq, ha, hm]
  have hmult : 0 < 1 + car.salesTaxPercent / 100 := by
    have : (0:ℚ) ≤ car.salesTaxPercent / 100 := div_nonneg htax (by norm_num)
    linarith
  have hnum : car.msrp * r1 / 100 < car.msrp * r2 / 100 :=
    (div_lt_div_iff_of_pos_right (by norm_num)).2 (mul_lt_mul_of_pos_left hr hmsrp)
  have hdep :
      car.msrp * (1 - car.discount / 100) +
          (car.tagTitleFilingFees + car.handlingFees + car.otherFees) -
          (car.downPayment + car.equityTransfer + car.dueAtSigning) -
          car.msrp * r2 / 100 <
        car.msrp * (1 - car.discount / 100) +
          (car.tagTitleFilingFees + car.handlingFees + car.otherFees) -
          (car.downPayment + car.equityTransfer + car.dueAtSigning) -
          car.msrp * r1 / 100 := by
    exact sub_lt_sub_left hnum _
  have hdiv := (div_lt_div_iff_of_pos_right hterm).2 hdep
  have := mul_lt_mul_of_pos_right hdiv hmult
  simpa using this

/-- C7 witness: on the concrete car (MSRP 30000, term 36, tax 7%, rates 0)
raising the residual percentage from 50 to 60 strictly lowers the total
monthly payment. -/
theorem claim_C7_witness :
    (0:ℚ) < 30000 ∧ (50:ℚ) < 60 ∧
    (getCarPayments { c7car with residualPercent := 60 }).totalMonthlyPayment <
      (getCarPayments { c7car with residualPercent := 50 }).totalMonthlyPayment := by
  refine ⟨by norm_num, by norm_num, ?_⟩
  exact claim_C7 c7car 50 60 rfl rfl (by norm_num [c7car, baseCar])
    (by norm_num [c7car, baseCar]) (by norm_num [c7car, baseCar]) (by norm_num)

/-- C2 (amended).  The pricing engine performs no input validation and has
no error outcome of any kind: for a zero lease term it silently returns
Infinity in monthlyDepreciation (whenever depreciation is positive), and
for every nonzero lease term — including negative terms and negative
MSRP — it silently returns the ordinary finite arithmetic breakdown.  No
InvalidVehicleConfiguration condition exists anywhere in the engine. -/
theorem claim_C2 (car : CarQ) :
    (car.leaseTerm = 0 → 0 < (getCarPayments car).depreciation →
      (getCarPaymentsJS car).monthlyDepreciation = JSNum.inf) ∧
    (car.leaseTerm ≠ 0 → getCarPaymentsJS car = liftPayments (getCarPayments car)) := by
  constructor
  · intro hterm hdep
    simp only [getCarPayments] at hdep
    simp [getCarPaymentsJS, JSNum.div, hterm, hdep]
  · intro hterm
    simp [getCarPaymentsJS, getCarPayments, liftPayments, JSNum.div, JSNum.add, JSNum.mul, hterm]

/-- C2 witness: the zero-term car (MSRP 10000, residual 50%, term 0) has
positive depreciation and gets Infinity; the negative-MSRP car with term
36 gets the finite breakdown. -/
theorem claim_C2_witness :
    (getCarPaymentsJS c2car).monthlyDepreciation = JSNum.inf ∧
    getCarPaymentsJS c2neg = liftPayments (getCarPayments c2neg) := by
  constructor
  · exact (claim_C2 c2car).1 rfl (by norm_num [getCarPayments, c2car, baseCar, jsOr0])
  · exact (claim_C2 c2neg).2 (by norm_num [c2neg, baseCar])

/-- C2 counterexample: at the concrete car with lease term 0 the engine
does not signal any error — its return type has no error outcome and the
call silently returns a breakdown whose monthlyDepreciation,
baseMonthlyPayment and totalMonthlyPayment are all Infinity. -/
theorem claim_C2_counterexample :
    (getCarPaymentsJS c2car).monthlyDepreciation = JSNum.inf ∧
    (getCarPaymentsJS c2car).baseMonthlyPayment = JSNum.inf ∧
    (getCarPaymentsJS c2car).totalMonthlyPayment = JSNum.inf := by
  norm_num [getCarPaymentsJS, c2car, baseCar, jsOr0, JSNum.div, JSNum.add, JSNum.mul]

theorem strNe_u1_o : ("u1" : String) ≠ "o" := by decide

theorem strNe_o_u1 : ("o" : String) ≠ "u1" := by decide

theorem strNe_u1_u2 : ("u1" : String) ≠ "u2" := by decide

theorem strNe_u2_u1 : ("u2" : String) ≠ "u1" := by decide

theorem strNe_o_u2 : ("o" : String) ≠ "u2" := by decide

theorem strNe_u2_o : ("u2" : String) ≠ "o" := by decide

/-- C3 (failing input, evaluated).  Cars u1, o, u2 have payments 500, 550,
600; only o carries an override; the last settled ordering is the natural
payment order [u1, o, u2].  The two evaluations differ only in the
un-overridden u2's payment (600 versus 100).  Before the edit the ranking
is [u1, o, u2]; after it the ranking is [u2, u1, o]: the pinned car o has
moved relative to u2 (and its index changed from 1 to 2) even though only
an un-overridden car's payment changed.  The last conjunct shows the
comparator itself still orders u2 after o in the second evaluation — with
u2's pairwise payment win over u1 and the index constraints u1-before-o
and o-before-u2, the comparator's requirements are cyclic, so no output
order can satisfy them all and the sort breaks the pinning promises its
own comments state. -/
theorem claim_C3 :
    hasOverride c3ov "o" = true ∧
    hasOverride c3ov "u1" = false ∧
    hasOverride c3ov "u2" = false ∧
    c3u2a = { c3u2b with msrp := 600 } ∧
    rankPayment none c3ov c3u1 = 500 ∧
    rankPayment none c3ov c3o = 550 ∧
    rankPayment none c3ov c3u2a = 600 ∧
    rankPayment none c3ov c3u2b = 100 ∧
    (sortedCars [c3u2a, c3o, c3u1] none c3ov c3ord).map CarQ.id = ["u1", "o", "u2"] ∧
    (sortedCars [c3u2b, c3o, c3u1] none c3ov c3ord).map CarQ.id = ["u2", "u1", "o"] ∧
    (pinnedCompare c3ov c3ord none c3u2b c3o).isPos = true := by
  norm_num [sortedCars, jsSortBy, orderedInsertJS, pinnedCompare, paymentCompare,
    rankPayment, hasOverride, idxOrInf, orderIdx, lookupOv, JSNum.isPos, JSNum.sub,
    getCarPaymentsWithOverride, c3u1, c3o, c3u2a, c3u2b, c3ov, c3ord, mkRankCar, baseCar,
    jsOr0, strNe_u1_o, strNe_o_u1, strNe_u1_u2, strNe_u2_u1, strNe_o_u2, strNe_u2_o]
